import Mathlib

/-!
A verification development for the QGroundControl video receiver core
(src/VideoStreaming/VideoReceiver.cc, src/VideoStreaming/VideoReceiver.h and
src/VideoStreaming/gstmetamagic.c).

The GStreamer graph is modelled shallowly: elements, pads, probes and bus
messages are explicit data; element-factory, pad and link failures of the
framework are injected through small environment records, and element
creation, bin-ownership transfer and unref calls are recorded as events so
that leak-freedom of the builder routines can be stated.  Machine integers
are modelled as Nat and Int with explicit reduction modulo 2 to the 64 where
the C code can overflow.
-/

namespace QGCVR

/-- Character-list test: the second list is a leading segment of the first
(helper for the QString searches used by VideoReceiver). -/
def strStartsWithAux : List Char → List Char → Bool
  | _, [] => true
  | [], _ :: _ => false
  | c :: cs, d :: ds => c == d && strStartsWithAux cs ds

/-- Character-list test: the second list occurs contiguously inside the
first. -/
def strContainsAux : List Char → List Char → Bool
  | [], sub => sub.isEmpty
  | c :: cs, sub => strStartsWithAux (c :: cs) sub || strContainsAux cs sub

/-- QString.contains(sub): substring containment, as used by
VideoReceiver::_makeSource on the URI (VideoReceiver.cc lines 448-453). -/
def uriContains (uri sub : String) : Bool := strContainsAux uri.data sub.data

/-- QString.startsWith(pre): used only to state the scheme-PREFIX reading of
the classification table that appears in the specification. -/
def uriStartsWith (uri pre : String) : Bool := strStartsWithAux uri.data pre.data

/-- The GStreamer elements that the two builder routines create transiently.
Each name follows the local variable of the C++ code that first holds it. -/
inductive Elem
  | source | parser | srcbin | rtpbuf | mux | filesink | sinkbin
deriving DecidableEq, Repr

/-- Reference-lifecycle events recorded while a builder runs: creation by a
factory, ownership transfer into a bin (gst_bin_add and friends), and
gst_object_unref. -/
inductive Ev
  | created (e : Elem)
  | ownedBy (b e : Elem)
  | unref (e : Elem)
deriving DecidableEq, Repr

/-- Every element name (used to enumerate leak candidates). -/
def allElems : List Elem :=
  [.source, .parser, .srcbin, .rtpbuf, .mux, .filesink, .sinkbin]

/-- The element was created by a factory during the run. -/
def wasCreated (evs : List Ev) (e : Elem) : Bool := evs.contains (.created e)

/-- The element was released: unref directly, owned by a bin that was itself
unref (destroying its children) or returned to the caller, or returned to
the caller itself. -/
def wasReleased (evs : List Ev) (returned : Option Elem) (e : Elem) : Bool :=
  evs.contains (.unref e) ||
  (evs.any fun ev =>
    match ev with
    | .ownedBy b e' => e' == e && (evs.contains (.unref b) || returned == some b)
    | _ => false) ||
  returned == some e

/-- Elements created during a builder run that are neither released nor
owned by a surviving bin: the leak set the spec asserts to be empty. -/
def leakedElems (evs : List Ev) (returned : Option Elem) : List Elem :=
  allElems.filter fun e => wasCreated evs e && !(wasReleased evs returned e)

/-- RTP payload caps attached to a udpsrc, per the two caps strings of
_makeSource (VideoReceiver.cc lines 479 and 484). -/
inductive RtpEnc
  | h264 | h265
deriving DecidableEq, Repr

/-- The ingest element chosen by _makeSource, with the properties the code
sets on it (for rtspsrc: latency, udp-reconnect, timeout, line 470). -/
inductive Ingest
  | tcpclientsrc
  | rtspsrc (latency udpReconnect timeout : Nat)
  | udpsrc (caps : Option RtpEnc)
deriving DecidableEq, Repr

/-- The parser element chosen by _makeSource (lines 506-516). -/
inductive ParserKind
  | tsdemux | parsebin
deriving DecidableEq, Repr

/-- How _makeSource wired ingest to parser: a direct link, a link through an
rtpjitterbuffer, or a deferred pad-added subscription (lines 529-550). -/
inductive Linkage
  | direct | withBuffer | deferred
deriving DecidableEq, Repr

/-- Abstraction of a GstCaps value as far as _padProbe and
_linkPadWithOptionalBuffer inspect it: gst_caps_is_any and
gst_caps_can_intersect against the application/x-rtp filter. -/
structure Caps where
  isAny : Bool
  intersectsRtp : Bool
deriving DecidableEq, Repr

/-- The source bin assembled by _makeSource: ingest element, parser element
and the linkage shape between them. -/
structure SourceConfig where
  ingest : Ingest
  parser : ParserKind
  linkage : Linkage
deriving DecidableEq, Repr

/-- Framework environment for _makeSource: which factories succeed, whether
caps parsing succeeds, whether the eager links succeed, and the static
source pads of the created ingest element (each with the caps its
gst_pad_query_caps reports, none when that call fails). -/
structure SrcEnv where
  tcpclientsrcOk : Bool
  rtspsrcOk : Bool
  udpsrcOk : Bool
  capsOk : Bool
  tsdemuxOk : Bool
  parsebinOk : Bool
  binNewOk : Bool
  rtpjitterbufferOk : Bool
  linkOk : Bool
  rtpFilterOk : Bool
  srcPads : List (Option Caps)
deriving DecidableEq, Repr

/-- All element factories, caps strings and links of the source builder
succeed (the failure-free framework). -/
def allFactoriesOk (env : SrcEnv) : Bool :=
  env.tcpclientsrcOk && env.rtspsrcOk && env.udpsrcOk && env.capsOk &&
  env.tsdemuxOk && env.parsebinOk && env.binNewOk && env.rtpjitterbufferOk &&
  env.linkOk

/-- The RTP test of _padProbe and _linkPadWithOptionalBuffer (lines 368 and
425): the application/x-rtp filter parsed, the pad reported caps, the caps
are not ANY and they can intersect the filter. -/
def padCapsRtp (rtpFilterOk : Bool) (c : Option Caps) : Bool :=
  rtpFilterOk &&
    (match c with
     | some caps => !caps.isAny && caps.intersectsRtp
     | none => false)

/-- gst_element_foreach_src_pad(source, _padProbe, &probeRes) (line 527):
bit 1 records that a static source pad exists, bit 2 that some pad carries
RTP caps (VideoReceiver.cc lines 412-438). -/
def padProbeBits (rtpFilterOk : Bool) (pads : List (Option Caps)) : Nat :=
  pads.foldl (fun acc c => (acc ||| 1) ||| (if padCapsRtp rtpFilterOk c then 2 else 0)) 0

/-- Lines 462-503 of _makeSource: classify the URI by QString.contains tests
in the order of the if chain and create the ingest element.  Result none
means the do-while was left by break (or the final if-source-null check
fired); the event list records what was created and, for the caps-failure
break, the unref performed by the cleanup tail. -/
def makeSourceElement (env : SrcEnv) (udpReconnectUs : Nat)
    (isTaisync isUdp264 isRtsp isUdp265 isTcpMPEGTS isUdpMPEGTS : Bool) :
    Option Ingest × List Ev :=
  if isTcpMPEGTS then
    if env.tcpclientsrcOk then (some .tcpclientsrc, [.created .source]) else (none, [])
  else if isRtsp then
    if env.rtspsrcOk then (some (.rtspsrc 17 1 udpReconnectUs), [.created .source])
    else (none, [])
  else if isUdp264 || isUdp265 || isUdpMPEGTS || isTaisync then
    if env.udpsrcOk then
      if isUdp264 then
        if env.capsOk then (some (.udpsrc (some .h264)), [.created .source])
        else (none, [.created .source, .unref .source])
      else if isUdp265 then
        if env.capsOk then (some (.udpsrc (some .h265)), [.created .source])
        else (none, [.created .source, .unref .source])
      else (some (.udpsrc none), [.created .source])
    else (none, [])
  else (none, [])

/-- Lines 506-557 of _makeSource: create the parser (tsdemux for the MPEG-TS
schemes, parsebin otherwise), create the source bin, add both, probe the
ingest for static source pads and link (directly, through an
rtpjitterbuffer, or deferred to the pad-added signal).  On every break the
event list reproduces the unrefs of the cleanup tail, which unrefs every
still-non-null local. -/
def makeSourceRest (env : SrcEnv) (ingest : Ingest) (useTsdemux : Bool)
    (evs0 : List Ev) : Option SourceConfig × List Ev :=
  if (if useTsdemux then env.tsdemuxOk else env.parsebinOk) = false then
    (none, evs0 ++ [.unref .source])
  else
    let p : ParserKind := if useTsdemux then .tsdemux else .parsebin
    let evs1 := evs0 ++ [Ev.created .parser]
    if env.binNewOk = false then (none, evs1 ++ [.unref .parser, .unref .source])
    else
      let evs2 := evs1 ++
        [Ev.created .srcbin, .ownedBy .srcbin .source, .ownedBy .srcbin .parser]
      let probeRes := padProbeBits env.rtpFilterOk env.srcPads
      if probeRes &&& 1 ≠ 0 then
        if probeRes &&& 2 ≠ 0 then
          if env.rtpjitterbufferOk = false then
            (none, evs2 ++ [.unref .srcbin, .unref .parser, .unref .source])
          else
            let evs3 := evs2 ++ [Ev.created .rtpbuf, .ownedBy .srcbin .rtpbuf]
            if env.linkOk = false then
              (none, evs3 ++ [.unref .srcbin, .unref .parser, .unref .rtpbuf, .unref .source])
            else (some ⟨ingest, p, .withBuffer⟩, evs3)
        else
          if env.linkOk = false then
            (none, evs2 ++ [.unref .srcbin, .unref .parser, .unref .source])
          else (some ⟨ingest, p, .direct⟩, evs2)
      else (some ⟨ingest, p, .deferred⟩, evs2)

/-- VideoReceiver::_makeSource (lines 440-581): empty-URI check, scheme
classification by substring containment, ingest and parser creation, bin
assembly and pad-shape-dependent linking.  Returns the assembled source bin
description (none on failure) together with the lifecycle events. -/
def makeSource (env : SrcEnv) (udpReconnectUs : Nat) (uri : String) :
    Option SourceConfig × List Ev :=
  if uri = "" then (none, [])
  else
    let isTaisync := uriContains uri "tsusb://"
    let isUdp264 := uriContains uri "udp://"
    let isRtsp := uriContains uri "rtsp://"
    let isUdp265 := uriContains uri "udp265://"
    let isTcpMPEGTS := uriContains uri "tcp://"
    let isUdpMPEGTS := uriContains uri "mpegts://"
    let r := makeSourceElement env udpReconnectUs
        isTaisync isUdp264 isRtsp isUdp265 isTcpMPEGTS isUdpMPEGTS
    match r.1 with
    | none => (none, r.2)
    | some ingest => makeSourceRest env ingest (isTcpMPEGTS || isUdpMPEGTS) r.2

/-- What the dynamic pad-added handler did with one pad. -/
structure PadAddResult where
  usedBuffer : Bool
  bufferCreated : Bool
  linkedToSink : Bool
deriving DecidableEq, Repr

/-- The handler _linkPadWithOptionalBuffer (lines 357-410): re-evaluate RTP versus
non-RTP for the pad that just appeared; on RTP create an rtpjitterbuffer,
add it, link the pad into it and continue from its source pad; finally
newPadCB links the resulting pad into the parser sink.  The four Bool
arguments inject the failures the code checks: rtpjitterbuffer factory,
gst_element_get_static_pad of the buffer sink, gst_pad_link, and the final
gst_element_link_pads of newPadCB. -/
def linkPadWithOptionalBuffer (rtpFilterOk bufFactoryOk sinkPadOk padLinkOk
    finalLinkOk : Bool) (padCaps : Option Caps) : PadAddResult :=
  let isRtpPad := padCapsRtp rtpFilterOk padCaps
  if isRtpPad then
    if bufFactoryOk then
      if sinkPadOk then
        if padLinkOk then
          { usedBuffer := true, bufferCreated := true, linkedToSink := finalLinkOk }
        else
          { usedBuffer := false, bufferCreated := true, linkedToSink := finalLinkOk }
      else { usedBuffer := false, bufferCreated := true, linkedToSink := finalLinkOk }
    else { usedBuffer := false, bufferCreated := false, linkedToSink := finalLinkOk }
  else { usedBuffer := false, bufferCreated := false, linkedToSink := finalLinkOk }

/-- The linkage outcome of makeSourceRest as a function of the probed pad
shape: with a static pad (probe bit 1) the ingest is linked directly or
through the jitter buffer according to the RTP bit (bit 2); without one the
linking is deferred to the pad-added handler. -/
def linkShape (env : SrcEnv) : Linkage :=
  if padProbeBits env.rtpFilterOk env.srcPads &&& 1 ≠ 0 then
    (if padProbeBits env.rtpFilterOk env.srcPads &&& 2 ≠ 0 then Linkage.withBuffer
     else Linkage.direct)
  else Linkage.deferred

/-- kVideoMuxes (VideoReceiver.cc lines 39-44). -/
def kVideoMuxes : List String := ["matroskamux", "qtmux", "mp4mux"]

/-- kVideoExtensions (VideoReceiver.cc lines 32-37). -/
def kVideoExtensions : List String := ["mkv", "mov", "mp4"]

/-- FILE_FORMAT_MIN of VideoReceiver.h (line 113). -/
def FILE_FORMAT_MIN : Nat := 0

/-- FILE_FORMAT_MAX of VideoReceiver.h (line 117): one past mp4. -/
def FILE_FORMAT_MAX : Nat := 3

/-- Framework environment for _makeFileSink: which of its factory, pad and
link calls succeed. -/
structure SinkEnv where
  muxOk : Bool
  filesinkOk : Bool
  binOk : Bool
  padTemplateOk : Bool
  requestPadOk : Bool
  linkOk : Bool
deriving DecidableEq, Repr

/-- The sink bin _makeFileSink returns: the muxer element name and the
location property set on the filesink. -/
structure FileSinkBin where
  muxName : String
  location : String
deriving DecidableEq, Repr

/-- VideoReceiver::_makeFileSink (lines 1051-1136): format-range check,
muxer and filesink factories, sink bin, video pad template and request pad,
ownership transfer into the bin, ghost pad, and the muxer-to-filesink link.
Each failure path reproduces the cleanup of the function tail: sink and mux
are unref while releaseElements is still true, the bin is unref whenever
non-null (destroying the children it owns).  Note format below
FILE_FORMAT_MIN cannot occur for a Nat-valued format tag. -/
def makeFileSink (env : SinkEnv) (videoFile : String) (format : Nat) :
    Option FileSinkBin × List Ev :=
  if FILE_FORMAT_MAX ≤ format then (none, [])
  else if env.muxOk = false then (none, [])
  else if env.filesinkOk = false then (none, [.created .mux, .unref .mux])
  else if env.binOk = false then
    (none, [.created .mux, .created .filesink, .unref .filesink, .unref .mux])
  else if env.padTemplateOk = false then
    (none, [.created .mux, .created .filesink, .created .sinkbin,
            .unref .filesink, .unref .mux, .unref .sinkbin])
  else if env.requestPadOk = false then
    (none, [.created .mux, .created .filesink, .created .sinkbin,
            .unref .filesink, .unref .mux, .unref .sinkbin])
  else if env.linkOk = false then
    (none, [.created .mux, .created .filesink, .created .sinkbin,
            .ownedBy .sinkbin .mux, .ownedBy .sinkbin .filesink, .unref .sinkbin])
  else
    (some ⟨kVideoMuxes.getD format "", videoFile⟩,
     [.created .mux, .created .filesink, .created .sinkbin,
      .ownedBy .sinkbin .mux, .ownedBy .sinkbin .filesink])

/-- GST_CLOCK_TIME_NONE: the all-ones guint64. -/
def GST_CLOCK_TIME_NONE : Nat := 2 ^ 64 - 1

/-- Addition of a gint64 shift to a guint64 timestamp, reduced modulo 2 to
the 64 exactly as the C addition wraps. -/
def u64addShift (a : Nat) (shift : Int) : Nat :=
  (((a : Int) + shift) % (2 ^ 64 : Int)).toNat

/-- A GstBuffer as far as the qgcmetamagic transform touches it:
presentation timestamp, decode timestamp (guint64 values, with
GST_CLOCK_TIME_NONE as the none marker) and writability. -/
structure MMBuffer where
  pts : Nat
  dts : Nat
  writable : Bool
deriving DecidableEq, Repr

/-- The outcome of _mm_prepare_output_buffer: the output is the input buffer
itself (possibly mutated in place), a fresh shallow copy, or a flow error
when gst_buffer_copy fails. -/
inductive MMResult
  | inplace (b : MMBuffer)
  | copied (b : MMBuffer)
  | flowError
deriving DecidableEq, Repr

/-- The timestamp mutation of _mm_prepare_output_buffer (gstmetamagic.c
lines 108-114): add the shift to pts when pts is not none, then likewise to
dts. -/
def mm_shift_buffer (shift : Int) (b : MMBuffer) : MMBuffer :=
  let b1 := if b.pts ≠ GST_CLOCK_TIME_NONE then { b with pts := u64addShift b.pts shift } else b
  if b1.dts ≠ GST_CLOCK_TIME_NONE then { b1 with dts := u64addShift b1.dts shift } else b1

/-- _mm_prepare_output_buffer (gstmetamagic.c lines 88-117): zero shift
passes the input through untouched; otherwise a writable buffer is mutated
in place and a non-writable one is shallow-copied first (flow error when the
copy fails), and the timestamps are shifted. -/
def mm_prepare_output_buffer (copyOk : Bool) (shift : Int) (inbuf : MMBuffer) :
    MMResult :=
  if shift = 0 then .inplace inbuf
  else if inbuf.writable then .inplace (mm_shift_buffer shift inbuf)
  else if copyOk then .copied (mm_shift_buffer shift inbuf)
  else .flowError

/-- passthrough_on_same_caps of gst_qgc_metamagic_class_init
(gstmetamagic.c line 134): the base transform runs in passthrough mode when
the caps on both pads are identical. -/
def passthrough_on_same_caps : Bool := true

/-- DEFAULT_TIMESTAMP_SHIFT (gstmetamagic.c line 32) as set by
gst_qgc_metamagic_init. -/
def default_timestamp_shift : Int := 0

/-- The pads on which VideoReceiver installs probes. -/
inductive PadId
  | decoderQueueSrc | recorderQueueSrc
deriving DecidableEq, Repr

/-- The probe callbacks of VideoReceiver. -/
inductive ProbeHandler
  | unlinkBranch | keyframeWatch | videoSinkProbe
deriving DecidableEq, Repr

/-- GstPadProbeReturn values used by the code. -/
inductive ProbeReturn
  | drop | ok | remove
deriving DecidableEq, Repr

/-- A bus outcome of the blocking gst_bus_timed_pop_filtered in stop_
(line 882): the filter admits exactly EOS and ERROR. -/
inductive BusMsg
  | eos | error
deriving DecidableEq, Repr

/-- The Qt signals referenced by the claims. -/
inductive Signal
  | restartTimeout | gotFirstRecordingKeyFrame | recordingChanged
deriving DecidableEq, Repr

/-- Externally visible framework calls and signal emissions performed by the
receiver operations, recorded in order. -/
inductive Act
  | addIdleProbe (p : PadId) (h : ProbeHandler)
  | addBufferProbe (p : PadId) (h : ProbeHandler)
  | sendPipelineEOS
  | setPipelineStateNull
  | removeVideoSink
  | removeDecoder
  | removeFileSink
  | unrefVideoSink
  | unrefFileSink
  | unrefPipeline
  | emitRecordingChanged
  | emitVideoRunningChanged
  | emitVideoFileChanged
  | armRestartTimer (ms : Nat)
deriving DecidableEq, Repr

/-- The mutable state of a VideoReceiver as declared in VideoReceiver.h
(lines 171-231): the boolean flags, the element pointers (modelled as
non-null Bools), and the Qt-side properties the claims mention. -/
structure RState where
  pipeline : Bool
  running : Bool
  streaming : Bool
  recording : Bool
  stopping : Bool
  starting : Bool
  stop : Bool
  decoding : Bool
  removingDecoder : Bool
  removingRecorder : Bool
  videoSink : Bool
  decoder : Bool
  fileSink : Bool
  tee : Bool
  source : Bool
  decoderQueue : Bool
  recorderQueue : Bool
  videoFile : String
  uri : String
  streamEnabled : Bool
  streamConfigured : Bool
  unittTestMode : Bool
  lastFrameTime : Int
  rtspTimeout : Int
deriving DecidableEq, Repr

/-- The state the VideoReceiver constructor establishes (VideoReceiver.cc
lines 51-92). -/
def idleState : RState where
  pipeline := false
  running := false
  streaming := false
  recording := false
  stopping := false
  starting := false
  stop := true
  decoding := false
  removingDecoder := false
  removingRecorder := false
  videoSink := false
  decoder := false
  fileSink := false
  tee := false
  source := false
  decoderQueue := false
  recorderQueue := false
  videoFile := ""
  uri := ""
  streamEnabled := false
  streamConfigured := false
  unittTestMode := false
  lastFrameTime := 0
  rtspTimeout := 0

/-- Value of _restart_time_ms as initialised by the constructor (line 72). -/
def restart_time_ms : Nat := 1389

/-- The restart timer is single-shot (line 84). -/
def restartTimerSingleShot : Bool := true

/-- The restart timer timeout is connected to the restartTimeout signal
(line 85). -/
def restartTimerConnectedTo : Signal := .restartTimeout

/-- Period of _frameTimer in milliseconds (line 90: _frameTimer.start(1000)). -/
def frameTimerIntervalMs : Nat := 1000

/-- The frame timer is periodic (QTimer default: not single-shot). -/
def frameTimerSingleShot : Bool := false

/-- VideoReceiver::_shutdownDecodingBranch (lines 1365-1383): remove the
decoder and the video sink from the pipeline, null the sink state, drop the
sink reference, clear _decoding, emit videoRunningChanged. -/
def shutdownDecodingBranch (s : RState) : RState × List Act :=
  ({ s with decoder := false, videoSink := false, decoding := false },
   [.removeDecoder, .removeVideoSink, .unrefVideoSink, .emitVideoRunningChanged])

/-- VideoReceiver::_shutdownRecordingBranch (lines 1385-1400): remove the
file sink from the pipeline, null its state, drop its reference, clear
_recording, emit recordingChanged. -/
def shutdownRecordingBranch (s : RState) : RState × List Act :=
  ({ s with fileSink := false, recording := false },
   [.removeFileSink, .unrefFileSink, .emitRecordingChanged])

/-- VideoReceiver::_shutdownPipeline (lines 904-931): no-op when the
pipeline pointer is null; otherwise set the pipeline state to null, remove
the video sink from the bin, null the graph pointers and the flags, unref
the pipeline and emit recordingChanged. -/
def shutdownPipeline (s : RState) : RState × List Act :=
  if s.pipeline = false then (s, [])
  else
    ({ s with decoding := false, decoder := false, decoderQueue := false,
              tee := false, source := false, pipeline := false,
              streaming := false, recording := false, stopping := false,
              running := false },
     [.setPipelineStateNull, .removeVideoSink, .unrefPipeline, .emitRecordingChanged])

/-- The _stopping branch of VideoReceiver::_handleEOS (lines 947-956): shut
down whichever branches are draining, then the pipeline. -/
def handleEOSWhileStopping (s : RState) : RState × List Act :=
  let r1 := if s.decoding && s.removingDecoder then shutdownDecodingBranch s else (s, [])
  let r2 := if r1.1.recording && r1.1.removingRecorder then shutdownRecordingBranch r1.1
            else (r1.1, [])
  let r3 := shutdownPipeline r2.1
  (r3.1, r1.2 ++ r2.2 ++ r3.2)

/-- VideoReceiver::stop_ (lines 868-893): set _stop; if never streaming,
shut the pipeline down synchronously; else if a pipeline exists and no stop
is in flight, disable sync bus emission, send EOS at the pipeline root, wait
for the first EOS-or-ERROR bus message (the msg argument), and handle it:
ERROR forces _shutdownPipeline, EOS runs _handleEOS (whose _stopping branch
is taken, _stopping having just been set). -/
def stop_ (s : RState) (msg : BusMsg) : RState × List Act :=
  let s0 := { s with stop := true }
  if s0.streaming = false then shutdownPipeline s0
  else if s0.pipeline && !s0.stopping then
    let s1 := { s0 with stopping := true }
    match msg with
    | .error =>
        let r := shutdownPipeline s1
        (r.1, Act.sendPipelineEOS :: r.2)
    | .eos =>
        let r := handleEOSWhileStopping s1
        (r.1, Act.sendPipelineEOS :: r.2)
  else (s0, [])

/-- VideoReceiver::_scheduleUnlink (lines 1329-1343) as invoked by
stopDecoding_ (lines 1345-1361): when a pipeline exists and decoding is on,
mark the decoder branch as being removed and add an IDLE probe running
_unlinkBranch on the decoder queue source pad. -/
def stopDecoding_ (s : RState) : RState × List Act :=
  if s.pipeline = false || s.decoding = false then (s, [])
  else ({ s with removingDecoder := true },
        [.addIdleProbe .decoderQueueSrc .unlinkBranch])

/-- VideoReceiver::stopRecording_ (lines 1245-1261): when a pipeline exists
and recording is on, mark the recorder branch as being removed and add an
IDLE probe running _unlinkBranch on the recorder queue source pad (through
_scheduleUnlink). -/
def stopRecording_ (s : RState) : RState × List Act :=
  if s.pipeline = false || s.recording = false then (s, [])
  else ({ s with removingRecorder := true },
        [.addIdleProbe .recorderQueueSrc .unlinkBranch])

/-- VideoReceiver::stop (lines 855-866): a no-op in unit-test mode,
otherwise stopDecoding_ followed by stop_. -/
def stopPub (s : RState) (msg : BusMsg) : RState × List Act :=
  if s.unittTestMode then (s, [])
  else
    let r1 := stopDecoding_ s
    let r2 := stop_ r1.1 msg
    (r2.1, r1.2 ++ r2.2)

/-- VideoReceiver::_handleError (lines 936-941): stop() and then start the
single-shot restart timer with _restart_time_ms. -/
def handleError (s : RState) (msg : BusMsg) : RState × List Act :=
  let r := stopPub s msg
  (r.1, r.2 ++ [.armRestartTimer restart_time_ms])

/-- VideoReceiver::_handleEOS (lines 946-965): while stopping, drain and
shut down; otherwise shut down a draining branch; otherwise the EOS is
unexpected and _handleError runs.  The msg argument feeds the blocking wait
of the stop() that _handleError performs. -/
def handleEOS (s : RState) (msg : BusMsg) : RState × List Act :=
  if s.stopping then handleEOSWhileStopping s
  else if s.decoding && s.removingDecoder then shutdownDecodingBranch s
  else if s.recording && s.removingRecorder then shutdownRecordingBranch s
  else handleError s msg

/-- Actions of the _unlinkBranch pad-probe body (lines 1407-1426): obtain
the peer sink pad, unlink, send EOS downstream on the peer. -/
inductive BranchAct
  | unlinkPads (src sink : Nat)
  | sendEOS (sink : Nat)
deriving DecidableEq, Repr

/-- The inner VideoReceiver::_unlinkBranch(GstPad*) (lines 1407-1426): with
no peer it only logs; with a peer it unlinks the two pads and sends EOS on
the peer sink pad. -/
def unlinkBranchOn (src : Nat) (peer : Option Nat) : List BranchAct :=
  match peer with
  | none => []
  | some sink => [.unlinkPads src sink, .sendEOS sink]

/-- The static probe VideoReceiver::_unlinkBranch (lines 1431-1443): run the
inner routine and remove the probe by returning GST_PAD_PROBE_REMOVE. -/
def unlinkBranchProbe (src : Nat) (peer : Option Nat) : ProbeReturn × List BranchAct :=
  (.remove, unlinkBranchOn src peer)

/-- Framework environment for startRecording_ beyond _makeFileSink: the
recorder-queue link and the probe-pad lookup. -/
structure RecEnv where
  sinkEnv : SinkEnv
  linkQueueOk : Bool
  probePadOk : Bool
deriving DecidableEq, Repr

/-- VideoReceiver::startRecording_ (lines 1175-1236): refuse without a
pipeline or while recording; set _videoFile and emit videoFileChanged; build
the file sink (returning on failure); add and link it, then install the
_keyframeWatch buffer probe on the recorder queue source pad, set _recording
and emit recordingChanged. -/
def startRecording_ (env : RecEnv) (s : RState) (videoFilePath : String)
    (format : Nat) : RState × List Act :=
  if s.pipeline = false || s.recording = true then (s, [])
  else
    let s1 := { s with videoFile := videoFilePath }
    match (makeFileSink env.sinkEnv videoFilePath format).1 with
    | none => (s1, [.emitVideoFileChanged])
    | some _ =>
        let s2 := { s1 with removingRecorder := false, fileSink := true }
        if env.linkQueueOk = false then (s2, [.emitVideoFileChanged])
        else if env.probePadOk = false then (s2, [.emitVideoFileChanged])
        else
          ({ s2 with recording := true },
           [.emitVideoFileChanged,
            .addBufferProbe .recorderQueueSrc .keyframeWatch,
            .emitRecordingChanged])

/-- VideoReceiver::start (lines 698-722): return at once in unit-test mode
or when the stream is not both enabled and configured; otherwise invoke
start_ with the configured URI (returned as some uri; the Taisync override
is compiled out on desktop builds).  The state is never changed. -/
def start (s : RState) : RState × Option String :=
  if s.unittTestMode then (s, none)
  else if s.streamEnabled = false || s.streamConfigured = false then (s, none)
  else (s, some s.uri)

/-- VideoReceiver::_updateTimer (lines 1501-1539): return early while
stopping or starting; the remaining body, including the comparison of now
minus _lastFrameTime against the timeout and every restart action, is
compiled out by an if-0 preprocessor block, so the tick never changes state
and never performs an action.  The now argument mirrors
QDateTime::currentSecsSinceEpoch, which the live code never reads. -/
def updateTimer (s : RState) (_now : Int) : RState × List Act :=
  if s.stopping || s.starting then (s, [])
  else (s, [])

/-- A buffer as seen by the _keyframeWatch probe on the recording branch:
presentation timestamp and the GST_BUFFER_FLAG_DELTA_UNIT flag. -/
structure RecBuffer where
  pts : Int
  delta : Bool
deriving DecidableEq, Repr

/-- VideoReceiver::_keyframeWatch (lines 1474-1498): drop buffers carrying
the delta-unit flag; on the first buffer without it, set the pad offset to
the negated presentation timestamp, emit gotFirstRecordingKeyFrame and
remove the probe.  Result: the probe verdict, the new pad offset if one was
set, and whether the signal was emitted. -/
def keyframeWatch (b : RecBuffer) : ProbeReturn × Option Int × Bool :=
  if b.delta then (.drop, none, false)
  else (.remove, some (-b.pts), true)

/-- The state of the recorder-queue source pad while the keyframe watch is
in place: whether the probe is still installed, the pad offset applied
downstream, and how many gotFirstRecordingKeyFrame signals were emitted. -/
structure PadState where
  probeInstalled : Bool
  offset : Int
  signals : Nat
deriving DecidableEq, Repr

/-- One buffer through the recorder-queue source pad: while the probe is
installed its verdict is applied (drop, or set the offset and remove); an
emitted buffer is delivered downstream with the pad offset added to its
presentation timestamp. -/
def recordPadStep (st : PadState) (b : RecBuffer) :
    PadState × Option (RecBuffer × Int) :=
  if st.probeInstalled then
    match keyframeWatch b with
    | (.drop, _, _) => (st, none)
    | (.remove, off, sig) =>
        let st1 : PadState :=
          { probeInstalled := false, offset := off.getD st.offset,
            signals := st.signals + (if sig then 1 else 0) }
        (st1, some (b, b.pts + st1.offset))
    | (.ok, _, _) => (st, some (b, b.pts + st.offset))
  else (st, some (b, b.pts + st.offset))

/-- The buffers a recording session delivers to the file sink: fold
recordPadStep over the buffer sequence, collecting the delivered buffers
with their effective (offset-adjusted) presentation timestamps. -/
def recordPadRun (st : PadState) : List RecBuffer → PadState × List (RecBuffer × Int)
  | [] => (st, [])
  | b :: rest =>
      match recordPadStep st b with
      | (st1, none) => recordPadRun st1 rest
      | (st1, some out) =>
          let r := recordPadRun st1 rest
          (r.1, out :: r.2)

/-- The scheme-PREFIX reading of the classification table in the
specification, stated for one URI against the configuration the source
builder produced for it: each row demands the ingest and parser of the
table whenever the URI starts with the row scheme. -/
def schemePrefixTable (timeout : Nat) (uri : String) (cfg : Option SourceConfig) : Prop :=
  (uriStartsWith uri "tcp://" = true →
     cfg.map SourceConfig.ingest = some .tcpclientsrc ∧
     cfg.map SourceConfig.parser = some .tsdemux) ∧
  (uriStartsWith uri "mpegts://" = true →
     cfg.map SourceConfig.ingest = some (.udpsrc none) ∧
     cfg.map SourceConfig.parser = some .tsdemux) ∧
  (uriStartsWith uri "udp://" = true →
     cfg.map SourceConfig.ingest = some (.udpsrc (some .h264)) ∧
     cfg.map SourceConfig.parser = some .parsebin) ∧
  (uriStartsWith uri "udp265://" = true →
     cfg.map SourceConfig.ingest = some (.udpsrc (some .h265)) ∧
     cfg.map SourceConfig.parser = some .parsebin) ∧
  (uriStartsWith uri "rtsp://" = true →
     cfg.map SourceConfig.ingest = some (.rtspsrc 17 1 timeout) ∧
     cfg.map SourceConfig.parser = some .parsebin) ∧
  (uriStartsWith uri "tsusb://" = true →
     cfg.map SourceConfig.ingest = some (.udpsrc none) ∧
     cfg.map SourceConfig.parser = some .parsebin)

/-- A failure-free source-builder environment with one static non-RTP
source pad, used for concrete evaluations. -/
def envAllOk : SrcEnv where
  tcpclientsrcOk := true
  rtspsrcOk := true
  udpsrcOk := true
  capsOk := true
  tsdemuxOk := true
  parsebinOk := true
  binNewOk := true
  rtpjitterbufferOk := true
  linkOk := true
  rtpFilterOk := true
  srcPads := [some ⟨false, false⟩]

/-- A failure-free recorder environment, used for concrete evaluations. -/
def recEnvAllOk : RecEnv where
  sinkEnv := ⟨true, true, true, true, true, true⟩
  linkQueueOk := true
  probePadOk := true

/-- A live streaming state with neither branch attached, as reached after a
successful start_ and the first source pad (used for concrete evaluations). -/
def liveStreamingState : RState :=
  { idleState with pipeline := true, running := true, streaming := true,
                   stop := false, tee := true, source := true,
                   decoderQueue := true, recorderQueue := true }

/-- A live streaming state with the decoding branch attached. -/
def liveDecodingState : RState :=
  { liveStreamingState with decoding := true, decoder := true, videoSink := true }

/-- A live streaming state with the recording branch attached. -/
def liveRecordingState : RState :=
  { liveStreamingState with recording := true, fileSink := true,
                            videoFile := "/tmp/rec.mkv" }

/-- A live streaming state ready to start recording, with an old videoFile
property value. -/
def recReadyState : RState :=
  { liveStreamingState with videoFile := "/tmp/old.mkv" }

/-- A live decoding state whose last frame is long in the past against its
configured timeout (used to exercise the watchdog tick). -/
def watchdogStaleState : RState :=
  { liveDecodingState with lastFrameTime := 0, rtspTimeout := 5 }

/-- The predicate of a fully torn-down receiver: no pipeline and the
running, streaming, recording and stopping flags all clear. -/
def stoppedDown (s : RState) : Prop :=
  s.pipeline = false ∧ s.running = false ∧ s.streaming = false ∧
  s.recording = false ∧ s.stopping = false

/-- C5: for every buffer through the timestamp rebaser, a zero shift passes
the input buffer through completely unchanged; a non-zero shift mutates a
writable buffer in place and shallow-copies a non-writable one; the
presentation timestamp is shifted exactly when it is not the none value, and
the decode timestamp likewise; and the element is passthrough when the caps
on both pads are identical (the passthrough-on-same-caps class flag). -/
theorem C5_timestamp_rebaser (copyOk : Bool) (shift : Int) (b : MMBuffer) :
    (shift = 0 → mm_prepare_output_buffer copyOk shift b = .inplace b) ∧
    (shift ≠ 0 → b.writable = true →
       mm_prepare_output_buffer copyOk shift b = .inplace (mm_shift_buffer shift b)) ∧
    (shift ≠ 0 → b.writable = false → copyOk = true →
       mm_prepare_output_buffer copyOk shift b = .copied (mm_shift_buffer shift b)) ∧
    (b.pts ≠ GST_CLOCK_TIME_NONE →
       (mm_shift_buffer shift b).pts = u64addShift b.pts shift) ∧
    (b.pts = GST_CLOCK_TIME_NONE → (mm_shift_buffer shift b).pts = b.pts) ∧
    (b.dts ≠ GST_CLOCK_TIME_NONE →
       (mm_shift_buffer shift b).dts = u64addShift b.dts shift) ∧
    (b.dts = GST_CLOCK_TIME_NONE → (mm_shift_buffer shift b).dts = b.dts) ∧
    passthrough_on_same_caps = true := by
  refine ⟨fun h1 => by simp [mm_prepare_output_buffer, h1],
          fun h1 h2 => by simp [mm_prepare_output_buffer, h1, h2],
          fun h1 h2 h3 => by simp [mm_prepare_output_buffer, h1, h2, h3],
          fun h1 => ?_, fun h1 => ?_, fun h1 => ?_, fun h1 => ?_, rfl⟩
  · unfold mm_shift_buffer
    by_cases h2 : b.dts = GST_CLOCK_TIME_NONE <;> simp [h1, h2]
  · unfold mm_shift_buffer
    by_cases h2 : b.dts = GST_CLOCK_TIME_NONE <;> simp [h1, h2]
  · unfold mm_shift_buffer
    by_cases h2 : b.pts = GST_CLOCK_TIME_NONE <;> simp [h1, h2]
  · unfold mm_shift_buffer
    by_cases h2 : b.pts = GST_CLOCK_TIME_NONE <;> simp [h1, h2]

theorem C5_timestamp_rebaser_witness :
    mm_prepare_output_buffer true 5 ⟨100, 200, true⟩ =
      .inplace (⟨105, 205, true⟩ : MMBuffer) := by
  have h := (C5_timestamp_rebaser true 5 ⟨100, 200, true⟩).2.1 (by decide) rfl
  rw [h]; decide

/-- C9 counterexample: in a live decoding state whose frame gap exceeds the
configured timeout, the watchdog tick changes nothing and performs no
action, so it does not trigger the restart the claim describes. -/
theorem C9_watchdog_cex :
    watchdogStaleState.decoding = true ∧
    (100 : Int) - watchdogStaleState.lastFrameTime > watchdogStaleState.rtspTimeout ∧
    updateTimer watchdogStaleState 100 = (watchdogStaleState, []) := by decide

/-- C9 amended: the watchdog tick does run at 1 Hz (the frame timer is
periodic with a 1000 ms interval, and the restart delay constant is
1389 ms), but its comparison body is compiled out: apart from an early
return while stopping or starting, the tick never compares the frame gap
against the timeout, never changes state and never performs any action, so
no restart is ever triggered by the watchdog. -/
theorem C9_watchdog_tick_disabled (s : RState) (now : Int) :
    updateTimer s now = (s, []) ∧ frameTimerIntervalMs = 1000 ∧
    frameTimerSingleShot = false ∧ restart_time_ms = 1389 := by
  refine ⟨?_, rfl, rfl, rfl⟩
  unfold updateTimer
  split <;> rfl

/-- C10: start() returns at once, creating nothing and changing no state,
whenever unit-test mode is on or either of the streamEnabled and
streamConfigured flags is off; only with both flags on outside unit-test
mode does it invoke start_ with the configured URI. -/
theorem C10_start_preconditions (s : RState) :
    (s.unittTestMode = true → start s = (s, none)) ∧
    (s.streamEnabled = false → start s = (s, none)) ∧
    (s.streamConfigured = false → start s = (s, none)) ∧
    (s.unittTestMode = false → s.streamEnabled = true → s.streamConfigured = true →
       start s = (s, some s.uri)) := by
  refine ⟨fun h => by simp [start, h], fun h => ?_, fun h => ?_, fun h1 h2 h3 => ?_⟩
  · by_cases hu : s.unittTestMode <;> simp [start, h, hu]
  · by_cases hu : s.unittTestMode <;> simp [start, h, hu]
  · simp [start, h1, h2, h3]

theorem C10_start_preconditions_witness :
    start { idleState with streamEnabled := true, streamConfigured := true,
                           uri := "udp://127.0.0.1:5600" } =
      ({ idleState with streamEnabled := true, streamConfigured := true,
                        uri := "udp://127.0.0.1:5600" }, some "udp://127.0.0.1:5600") :=
  (C10_start_preconditions _).2.2.2 rfl rfl rfl

/-- C2: both stopDecoding_ and stopRecording_ detach their branch through
the shared protocol: each adds an IDLE probe running _unlinkBranch on the
source pad of its branch queue, and the probe, when it fires on a pad with
a peer, unlinks the two pads, sends EOS downstream on the peer sink pad and
removes itself by returning REMOVE. -/
theorem C2_branch_unlink_protocol (s t : RState) (src sink : Nat)
    (hsp : s.pipeline = true) (hsd : s.decoding = true)
    (htp : t.pipeline = true) (htr : t.recording = true) :
    stopDecoding_ s = ({ s with removingDecoder := true },
      [.addIdleProbe .decoderQueueSrc .unlinkBranch]) ∧
    stopRecording_ t = ({ t with removingRecorder := true },
      [.addIdleProbe .recorderQueueSrc .unlinkBranch]) ∧
    unlinkBranchProbe src (some sink) =
      (.remove, [.unlinkPads src sink, .sendEOS sink]) := by
  refine ⟨?_, ?_, rfl⟩
  · simp [stopDecoding_, hsp, hsd]
  · simp [stopRecording_, htp, htr]

theorem C2_branch_unlink_protocol_witness :
    stopDecoding_ liveDecodingState = ({ liveDecodingState with removingDecoder := true },
      [.addIdleProbe .decoderQueueSrc .unlinkBranch]) ∧
    stopRecording_ liveRecordingState = ({ liveRecordingState with removingRecorder := true },
      [.addIdleProbe .recorderQueueSrc .unlinkBranch]) ∧
    unlinkBranchProbe 3 (some 4) = (.remove, [.unlinkPads 3 4, .sendEOS 4]) :=
  C2_branch_unlink_protocol liveDecodingState liveRecordingState 3 4 rfl rfl rfl rfl

/-- C6: an EOS handled while not stopping, with no decoder branch being
removed (or decoding off) and no recorder branch being removed (or
recording off), is treated as a pipeline error: _handleEOS falls through to
_handleError, which runs stop() and then arms the restart timer with the
1389 ms restart delay; the timer is single-shot and connected to the
restartTimeout signal. -/
theorem C6_unexpected_eos (s : RState) (msg : BusMsg)
    (h1 : s.stopping = false)
    (h2 : (s.decoding && s.removingDecoder) = false)
    (h3 : (s.recording && s.removingRecorder) = false) :
    handleEOS s msg = handleError s msg ∧
    handleError s msg =
      ((stopPub s msg).1, (stopPub s msg).2 ++ [.armRestartTimer restart_time_ms]) ∧
    restart_time_ms = 1389 ∧ restartTimerSingleShot = true ∧
    restartTimerConnectedTo = .restartTimeout := by
  refine ⟨?_, rfl, rfl, rfl, rfl⟩
  simp [handleEOS, h1, h2, h3]

theorem C6_unexpected_eos_witness :
    handleEOS liveStreamingState .eos = handleError liveStreamingState .eos ∧
    restart_time_ms = 1389 :=
  ⟨(C6_unexpected_eos liveStreamingState .eos rfl rfl rfl).1, rfl⟩

/-- On a state whose _stop flag is set, with no stream and no pipeline,
stop_ is a complete no-op: same state, no teardown action. -/
theorem stop_noop (s : RState) (m : BusMsg) (h1 : s.stop = true)
    (h2 : s.streaming = false) (h3 : s.pipeline = false) :
    stop_ s m = (s, []) := by
  obtain ⟨p, run, str, rec, stp, sta, st, dec, rd, rr, vs, d, fs, te, so, dq, rq,
          vf, u, se, sc, ut, lft, rt⟩ := s
  simp_all [stop_, shutdownPipeline]

/-- One call of stop_ from any state satisfying the receiver run invariant
(no stop in flight; a null pipeline carries no live flags; streaming implies
a pipeline) fully tears the receiver down and leaves the _stop flag set. -/
theorem stop_drives_down (s : RState) (m : BusMsg)
    (hnull : s.pipeline = false → s.running = false ∧ s.streaming = false ∧
             s.recording = false ∧ s.stopping = false)
    (hstopping : s.stopping = false)
    (hstream : s.streaming = true → s.pipeline = true) :
    stoppedDown (stop_ s m).1 ∧ (stop_ s m).1.stop = true := by
  obtain ⟨p, run, str, rec, stp, sta, st, dec, rd, rr, vs, d, fs, te, so, dq, rq,
          vf, u, se, sc, ut, lft, rt⟩ := s
  cases str <;> cases p <;> cases m <;> cases dec <;> cases rd <;> cases rec <;>
    cases rr <;>
    simp_all [stop_, shutdownPipeline, handleEOSWhileStopping,
              shutdownDecodingBranch, shutdownRecordingBranch, stoppedDown]

/-- C7: from every state satisfying the receiver run invariant (a null
pipeline carries no live flags, no stop is in flight, and streaming implies
a pipeline), one stop_ call leaves the pipeline handle null with the
running, streaming, recording and stopping flags all false, and a second
stop_ call returns the very same state while performing no teardown or
element-release action at all. -/
theorem C7_stop_idempotent (s : RState) (m1 m2 : BusMsg)
    (hnull : s.pipeline = false → s.running = false ∧ s.streaming = false ∧
             s.recording = false ∧ s.stopping = false)
    (hstopping : s.stopping = false)
    (hstream : s.streaming = true → s.pipeline = true) :
    stoppedDown (stop_ s m1).1 ∧
    stop_ (stop_ s m1).1 m2 = ((stop_ s m1).1, []) := by
  have key := stop_drives_down s m1 hnull hstopping hstream
  exact ⟨key.1, stop_noop _ m2 key.2 key.1.2.2.1 key.1.1⟩

theorem C7_stop_idempotent_witness :
    stoppedDown (stop_ liveStreamingState .eos).1 ∧
    stop_ (stop_ liveStreamingState .eos).1 .eos = ((stop_ liveStreamingState .eos).1, []) :=
  C7_stop_idempotent liveStreamingState .eos .eos (by decide) rfl (by decide)

/-- Once the keyframe probe is removed, the pad delivers every buffer with
the stored offset added to its presentation timestamp. -/
theorem recordPadRun_inactive (l : List RecBuffer) (off : Int) (n : Nat) :
    recordPadRun ⟨false, off, n⟩ l =
      (⟨false, off, n⟩, l.map fun b => (b, b.pts + off)) := by
  induction l with
  | nil => rfl
  | cons b rest ih => simp [recordPadRun, recordPadStep, ih]

/-- C1: a recording session begun by startRecording_ installs the
_keyframeWatch buffer probe on the recorder queue source pad; the probe
drops every delta-unit buffer, and at the first buffer without the flag it
sets the pad offset to the negated presentation timestamp, emits
gotFirstRecordingKeyFrame and removes itself; consequently, over any buffer
sequence containing a keyframe, the buffers delivered to the file sink are
exactly those from the first keyframe on, the probe ends removed with the
signal emitted once, and the first delivered buffer is that keyframe with
effective presentation timestamp 0. -/
theorem C1_keyframe_probe (env : RecEnv) (s : RState) (path : String) (fmt : Nat)
    (l : List RecBuffer)
    (hp : s.pipeline = true) (hr : s.recording = false)
    (hbuild : (makeFileSink env.sinkEnv path fmt).1 ≠ none)
    (hlink : env.linkQueueOk = true) (hpad : env.probePadOk = true)
    (hkey : ∃ b ∈ l, b.delta = false) :
    (startRecording_ env s path fmt).2 =
      [.emitVideoFileChanged, .addBufferProbe .recorderQueueSrc .keyframeWatch,
       .emitRecordingChanged] ∧
    (∀ b : RecBuffer, b.delta = true → keyframeWatch b = (.drop, none, false)) ∧
    (∀ b : RecBuffer, b.delta = false → keyframeWatch b = (.remove, some (-b.pts), true)) ∧
    ∃ k rest, l.dropWhile RecBuffer.delta = k :: rest ∧ k.delta = false ∧
      recordPadRun ⟨true, 0, 0⟩ l =
        (⟨false, -k.pts, 1⟩, (k, 0) :: rest.map fun b => (b, b.pts - k.pts)) := by
  refine ⟨?_, fun b hb => by simp [keyframeWatch, hb],
          fun b hb => by simp [keyframeWatch, hb], ?_⟩
  · rcases hfs : (makeFileSink env.sinkEnv path fmt).1 with _ | fs
    · exact absurd hfs hbuild
    · simp [startRecording_, hp, hr, hfs, hlink, hpad]
  · clear hp hr hbuild hlink hpad
    induction l with
    | nil => simp at hkey
    | cons b rest ih =>
        by_cases hd : b.delta
        · have hkey' : ∃ x ∈ rest, x.delta = false := by
            rcases hkey with ⟨x, hx, hxd⟩
            rcases List.mem_cons.mp hx with hx | hx
            · rw [hx] at hxd; rw [hxd] at hd; exact absurd hd (by simp)
            · exact ⟨x, hx, hxd⟩
          obtain ⟨k, r, h1, h2, h3⟩ := ih hkey'
          refine ⟨k, r, ?_, h2, ?_⟩
          · simp [List.dropWhile_cons, hd, h1]
          · simp [recordPadRun, recordPadStep, keyframeWatch, hd, h3]
        · have hd' : b.delta = false := by simpa using hd
          refine ⟨b, rest, ?_, hd', ?_⟩
          · simp [List.dropWhile_cons, hd']
          · have hrun := recordPadRun_inactive rest (-b.pts) 1
            simp [recordPadRun, recordPadStep, keyframeWatch, hd', hrun,
                  Int.sub_eq_add_neg]

theorem C1_keyframe_probe_witness :
    (startRecording_ recEnvAllOk recReadyState "/tmp/out.mkv" 0).2 =
      [.emitVideoFileChanged, .addBufferProbe .recorderQueueSrc .keyframeWatch,
       .emitRecordingChanged] ∧
    recordPadRun ⟨true, 0, 0⟩ [⟨100, true⟩, ⟨250, false⟩, ⟨300, true⟩] =
      (⟨false, -250, 1⟩, [(⟨250, false⟩, 0), (⟨300, true⟩, 50)]) := by
  have h := C1_keyframe_probe recEnvAllOk recReadyState "/tmp/out.mkv" 0
      [⟨100, true⟩, ⟨250, false⟩, ⟨300, true⟩] (by decide) (by decide) (by decide)
      rfl rfl ⟨⟨250, false⟩, by decide⟩
  exact ⟨h.1, by decide⟩

/-- C8 counterexample: with a live pipeline, recording off and an
out-of-range format tag (3), _makeFileSink fails, yet startRecording_ does
not leave the state exactly as it was: the videoFile property has already
been overwritten with the new path (and videoFileChanged emitted) before
the build failure. -/
theorem C8_recorder_build_cex :
    (makeFileSink recEnvAllOk.sinkEnv "/tmp/new.mkv" 3).1 = none ∧
    (startRecording_ recEnvAllOk recReadyState "/tmp/new.mkv" 3).1 ≠ recReadyState ∧
    (startRecording_ recEnvAllOk recReadyState "/tmp/new.mkv" 3).1.videoFile =
      "/tmp/new.mkv" ∧
    recReadyState.videoFile = "/tmp/old.mkv" := by decide

/-- C8 amended: when startRecording_ runs with a live pipeline and recording
off and the file-sink build fails (exactly on an out-of-range format tag, a
muxer, filesink or bin construction failure, a pad-template or pad-request
failure, or the muxer-to-filesink link failure), all partially created
elements are released and the call returns with the recording flag, the
pipeline graph and every other field unchanged, except that the videoFile
property has been set to the new path and videoFileChanged emitted before
the build was attempted. -/
theorem C8_recorder_build_atomicity (env : RecEnv) (s : RState) (path : String)
    (fmt : Nat) (hp : s.pipeline = true) (hr : s.recording = false)
    (hfail : (makeFileSink env.sinkEnv path fmt).1 = none) :
    startRecording_ env s path fmt =
      ({ s with videoFile := path }, [.emitVideoFileChanged]) ∧
    leakedElems (makeFileSink env.sinkEnv path fmt).2 none = [] ∧
    ((makeFileSink env.sinkEnv path fmt).1 = none ↔
      (FILE_FORMAT_MAX ≤ fmt ∨ env.sinkEnv.muxOk = false ∨
       env.sinkEnv.filesinkOk = false ∨ env.sinkEnv.binOk = false ∨
       env.sinkEnv.padTemplateOk = false ∨ env.sinkEnv.requestPadOk = false ∨
       env.sinkEnv.linkOk = false)) := by
  refine ⟨?_, ?_, ?_⟩
  · simp [startRecording_, hp, hr, hfail]
  · unfold makeFileSink at hfail ⊢
    split_ifs at hfail ⊢ <;> decide
  · unfold makeFileSink
    split_ifs <;> simp_all

theorem C8_recorder_build_atomicity_witness :
    startRecording_
        { recEnvAllOk with sinkEnv := { recEnvAllOk.sinkEnv with muxOk := false } }
        recReadyState "/tmp/new.mkv" 0 =
      ({ recReadyState with videoFile := "/tmp/new.mkv" }, [.emitVideoFileChanged]) :=
  (C8_recorder_build_atomicity
      { recEnvAllOk with sinkEnv := { recEnvAllOk.sinkEnv with muxOk := false } }
      recReadyState "/tmp/new.mkv" 0 (by decide) (by decide) (by decide)).1

/-- Unpacking of the failure-free source-builder environment. -/
theorem allFactoriesOk_spec (env : SrcEnv) (h : allFactoriesOk env = true) :
    env.tcpclientsrcOk = true ∧ env.rtspsrcOk = true ∧ env.udpsrcOk = true ∧
    env.capsOk = true ∧ env.tsdemuxOk = true ∧ env.parsebinOk = true ∧
    env.binNewOk = true ∧ env.rtpjitterbufferOk = true ∧ env.linkOk = true := by
  simp only [allFactoriesOk, Bool.and_eq_true] at h
  tauto

/-- With every factory available, the ingest chosen by the classification
step is a function of the six containment flags alone, following the
if chain of _makeSource. -/
theorem makeSourceElement_fst (env : SrcEnv) (t : Nat) (a b c d e f : Bool)
    (hok : allFactoriesOk env = true) :
    (makeSourceElement env t a b c d e f).1 =
      (if e then some .tcpclientsrc
       else if c then some (.rtspsrc 17 1 t)
       else if b || d || f || a then
         some (.udpsrc (if b then some .h264 else if d then some .h265 else none))
       else none) := by
  obtain ⟨h1, h2, h3, h4, h5, h6, h7, h8, h9⟩ := allFactoriesOk_spec env hok
  unfold makeSourceElement
  split_ifs <;> simp_all

/-- With every factory available and all links succeeding, the assembly step
wraps the ingest with the parser dictated by the MPEG-TS flag and the
linkage dictated by the probed pad shape. -/
theorem makeSourceRest_ok (env : SrcEnv) (ing : Ingest) (useTs : Bool)
    (evs0 : List Ev)
    (h1 : (if useTs then env.tsdemuxOk else env.parsebinOk) = true)
    (h2 : env.binNewOk = true) (h3 : env.rtpjitterbufferOk = true)
    (h4 : env.linkOk = true) :
    (makeSourceRest env ing useTs evs0).1 =
      some ⟨ing, if useTs then .tsdemux else .parsebin, linkShape env⟩ := by
  unfold makeSourceRest linkShape
  simp only [h1, h2, h3, h4, reduceIte]
  split_ifs <;> first | rfl | assumption

/-- With every factory available, a non-empty URI makes the source builder
return exactly the configuration of the containment-ordered classification
table (or none when no scheme marker occurs in the URI). -/
theorem makeSource_classify (env : SrcEnv) (t : Nat) (uri : String)
    (hok : allFactoriesOk env = true) (hne : ¬ uri = "") :
    (makeSource env t uri).1 =
      (if uriContains uri "tcp://" then
         some ⟨.tcpclientsrc, .tsdemux, linkShape env⟩
       else if uriContains uri "rtsp://" then
         some ⟨.rtspsrc 17 1 t,
               if uriContains uri "mpegts://" then .tsdemux else .parsebin,
               linkShape env⟩
       else if uriContains uri "udp://" || uriContains uri "udp265://" ||
               uriContains uri "mpegts://" || uriContains uri "tsusb://" then
         some ⟨.udpsrc (if uriContains uri "udp://" then some .h264
                        else if uriContains uri "udp265://" then some .h265
                        else none),
               if uriContains uri "mpegts://" then .tsdemux else .parsebin,
               linkShape env⟩
       else none) := by
  obtain ⟨h1, h2, h3, h4, h5, h6, h7, h8, h9⟩ := allFactoriesOk_spec env hok
  have hel := makeSourceElement_fst env t (uriContains uri "tsusb://")
      (uriContains uri "udp://") (uriContains uri "rtsp://")
      (uriContains uri "udp265://") (uriContains uri "tcp://")
      (uriContains uri "mpegts://") hok
  have hts : (if (uriContains uri "tcp://" || uriContains uri "mpegts://") then
      env.tsdemuxOk else env.parsebinOk) = true := by
    cases uriContains uri "tcp://" <;> cases uriContains uri "mpegts://" <;>
      simp [h5, h6]
  have hrw : ∀ (ing : Ingest) (evs : List Ev),
      (makeSourceRest env ing
        (uriContains uri "tcp://" || uriContains uri "mpegts://") evs).1 =
      some ⟨ing, if (uriContains uri "tcp://" || uriContains uri "mpegts://") then
                   .tsdemux else .parsebin, linkShape env⟩ :=
    fun ing evs => makeSourceRest_ok env ing _ evs hts h7 h8 h9
  simp only [makeSource]
  rw [if_neg hne, hel]
  split_ifs <;> simp_all [hrw]

/-- Probing a single static pad sets bit 1 always and bit 2 exactly on RTP
caps. -/
theorem padProbeBits_single (fok : Bool) (c : Option Caps) :
    padProbeBits fok [c] = if padCapsRtp fok c then 3 else 1 := by
  by_cases h : padCapsRtp fok c = true <;> simp [padProbeBits, h]

/-- Every configuration the source builder returns carries the linkage
dictated by the probed pad shape. -/
theorem makeSource_some_linkage (env : SrcEnv) (t : Nat) (uri : String)
    (cfg : SourceConfig) (hok : allFactoriesOk env = true)
    (hsome : (makeSource env t uri).1 = some cfg) :
    cfg.linkage = linkShape env := by
  by_cases hne : uri = ""
  · simp [makeSource, hne] at hsome
  · rw [makeSource_classify env t uri hok hne] at hsome
    split_ifs at hsome <;>
      (simp only [Option.some.injEq] at hsome
       subst hsome
       rfl)

/-- C3 counterexample: the URI mpegts://127.0.0.1:5000/tcp:// starts with
the mpegts scheme, for which the table prescribes a UDP source, but the
builder classifies by QString.contains and the tcp:// test wins, so a TCP
client source is built: the scheme-prefix table is violated. -/
theorem C3_scheme_prefix_cex :
    ¬ schemePrefixTable 5000000 "mpegts://127.0.0.1:5000/tcp://"
        (makeSource envAllOk 5000000 "mpegts://127.0.0.1:5000/tcp://").1 :=
  fun h => absurd (h.2.1 (by decide)).1 (by decide)

/-- C3 amended: the source builder classifies the URI by substring
containment (QString.contains), tested in the priority order tcp, rtsp,
then the UDP family, rather than by scheme prefix; with that reading the
table holds: a URI containing tcp:// gets the TCP client source with the
MPEG-TS demuxer; one containing rtsp:// (and no higher-priority or
MPEG-TS marker) gets the RTSP source with latency 17, udp-reconnect 1 and
the configured timeout, parsed by parse-bin; udp:// gets a UDP source with
H264 RTP caps, udp265:// a UDP source with H265 RTP caps, mpegts:// a UDP
source with the MPEG-TS demuxer, tsusb:// a plain UDP source; every
non-MPEG-TS scheme uses parse-bin; and the build returns no source bin
exactly for an empty or marker-free URI, in which case nothing was created,
so nothing leaks. -/
theorem C3_scheme_classification (env : SrcEnv) (t : Nat) (uri : String)
    (hok : allFactoriesOk env = true) :
    ((makeSource env t uri).1 = none ↔
       (uri = "" ∨
        (uriContains uri "tcp://" = false ∧ uriContains uri "rtsp://" = false ∧
         uriContains uri "udp://" = false ∧ uriContains uri "udp265://" = false ∧
         uriContains uri "mpegts://" = false ∧ uriContains uri "tsusb://" = false))) ∧
    ((makeSource env t uri).1 = none → (makeSource env t uri).2 = []) ∧
    (uriContains uri "tcp://" = true →
       (makeSource env t uri).1.map SourceConfig.ingest = some .tcpclientsrc ∧
       (makeSource env t uri).1.map SourceConfig.parser = some .tsdemux) ∧
    (uriContains uri "tcp://" = false → uriContains uri "rtsp://" = true →
     uriContains uri "mpegts://" = false →
       (makeSource env t uri).1.map SourceConfig.ingest = some (.rtspsrc 17 1 t) ∧
       (makeSource env t uri).1.map SourceConfig.parser = some .parsebin) ∧
    (uriContains uri "tcp://" = false → uriContains uri "rtsp://" = false →
     uriContains uri "udp://" = true → uriContains uri "mpegts://" = false →
       (makeSource env t uri).1.map SourceConfig.ingest = some (.udpsrc (some .h264)) ∧
       (makeSource env t uri).1.map SourceConfig.parser = some .parsebin) ∧
    (uriContains uri "tcp://" = false → uriContains uri "rtsp://" = false →
     uriContains uri "udp://" = false → uriContains uri "udp265://" = true →
     uriContains uri "mpegts://" = false →
       (makeSource env t uri).1.map SourceConfig.ingest = some (.udpsrc (some .h265)) ∧
       (makeSource env t uri).1.map SourceConfig.parser = some .parsebin) ∧
    (uriContains uri "tcp://" = false → uriContains uri "rtsp://" = false →
     uriContains uri "udp://" = false → uriContains uri "udp265://" = false →
     uriContains uri "mpegts://" = true →
       (makeSource env t uri).1.map SourceConfig.ingest = some (.udpsrc none) ∧
       (makeSource env t uri).1.map SourceConfig.parser = some .tsdemux) ∧
    (uriContains uri "tcp://" = false → uriContains uri "rtsp://" = false →
     uriContains uri "udp://" = false → uriContains uri "udp265://" = false →
     uriContains uri "mpegts://" = false → uriContains uri "tsusb://" = true →
       (makeSource env t uri).1.map SourceConfig.ingest = some (.udpsrc none) ∧
       (makeSource env t uri).1.map SourceConfig.parser = some .parsebin) := by
  have hiff : (makeSource env t uri).1 = none ↔
      (uri = "" ∨
       (uriContains uri "tcp://" = false ∧ uriContains uri "rtsp://" = false ∧
        uriContains uri "udp://" = false ∧ uriContains uri "udp265://" = false ∧
        uriContains uri "mpegts://" = false ∧ uriContains uri "tsusb://" = false)) := by
    by_cases hne : uri = ""
    · simp [makeSource, hne]
    · rw [makeSource_classify env t uri hok hne]
      constructor
      · intro hnone
        split_ifs at hnone with hE hC hU
        all_goals
          first
            | exact Option.noConfusion hnone
            | (right
               simp only [Bool.or_eq_true, not_or, Bool.not_eq_true] at hE hC hU
               obtain ⟨⟨⟨hb, hd⟩, hf⟩, ha⟩ := hU
               exact ⟨hE, hC, hb, hd, hf, ha⟩)
      · intro h
        rcases h with h | hf
        · exact absurd h hne
        · obtain ⟨htcp, hrtsp, hudp, hudp265, hmpeg, htsusb⟩ := hf
          simp [htcp, hrtsp, hudp, hudp265, hmpeg, htsusb]
  refine ⟨hiff, ?_, ?_, ?_, ?_, ?_, ?_, ?_⟩
  · intro hnone
    by_cases hne : uri = ""
    · simp [makeSource, hne]
    · rcases hiff.mp hnone with h | hf
      · exact absurd h hne
      · obtain ⟨htcp, hrtsp, hudp, hudp265, hmpeg, htsusb⟩ := hf
        simp [makeSource, hne, makeSourceElement, htcp, hrtsp, hudp, hudp265,
              hmpeg, htsusb]
  · intro hE
    have hne : ¬ uri = "" := fun h0 => absurd (h0 ▸ hE) (by decide)
    rw [makeSource_classify env t uri hok hne]
    simp [hE]
  · intro hE hC hM
    have hne : ¬ uri = "" := fun h0 => absurd (h0 ▸ hC) (by decide)
    rw [makeSource_classify env t uri hok hne]
    simp [hE, hC, hM]
  · intro hE hC hU hM
    have hne : ¬ uri = "" := fun h0 => absurd (h0 ▸ hU) (by decide)
    rw [makeSource_classify env t uri hok hne]
    simp [hE, hC, hU, hM]
  · intro hE hC hU hD hM
    have hne : ¬ uri = "" := fun h0 => absurd (h0 ▸ hD) (by decide)
    rw [makeSource_classify env t uri hok hne]
    simp [hE, hC, hU, hD, hM]
  · intro hE hC hU hD hM
    have hne : ¬ uri = "" := fun h0 => absurd (h0 ▸ hM) (by decide)
    rw [makeSource_classify env t uri hok hne]
    simp [hE, hC, hU, hD, hM]
  · intro hE hC hU hD hM hA
    have hne : ¬ uri = "" := fun h0 => absurd (h0 ▸ hA) (by decide)
    rw [makeSource_classify env t uri hok hne]
    simp [hE, hC, hU, hD, hM, hA]

theorem C3_scheme_classification_witness :
    (makeSource envAllOk 5000000 "tcp://127.0.0.1:5000").1.map SourceConfig.ingest =
      some .tcpclientsrc ∧
    (makeSource envAllOk 5000000 "tcp://127.0.0.1:5000").1.map SourceConfig.parser =
      some .tsdemux :=
  (C3_scheme_classification envAllOk 5000000 "tcp://127.0.0.1:5000" rfl).2.2.1
    (by decide)

/-- C4: in any successfully built source bin, a single static source pad
probed at build time yields a direct ingest-to-parser link, with the RTP
jitter buffer inserted between them iff the pad caps are not ANY and can
intersect the application/x-rtp filter; no static pad yields the deferred
pad-added subscription, and the pad-added handler, with the framework
succeeding, inserts the jitter buffer into the path exactly for RTP pads
and links the pad into the parser either way. -/
theorem C4_pad_shape_linking (env : SrcEnv) (t : Nat) (uri : String)
    (cfg : SourceConfig) (c : Option Caps)
    (hok : allFactoriesOk env = true)
    (hsome : (makeSource env t uri).1 = some cfg) :
    (env.srcPads = [c] →
       cfg.linkage =
         (if padCapsRtp env.rtpFilterOk c then Linkage.withBuffer else Linkage.direct)) ∧
    (env.srcPads = [] → cfg.linkage = Linkage.deferred) ∧
    (∀ fok pc, (linkPadWithOptionalBuffer fok true true true true pc).usedBuffer =
       padCapsRtp fok pc) ∧
    (∀ fok pc, (linkPadWithOptionalBuffer fok true true true true pc).linkedToSink =
       true) := by
  have hl := makeSource_some_linkage env t uri cfg hok hsome
  refine ⟨fun hpads => ?_, fun hpads => ?_, fun fok pc => ?_, fun fok pc => ?_⟩
  · rw [hl]
    unfold linkShape
    rw [hpads, padProbeBits_single]
    by_cases hr : padCapsRtp env.rtpFilterOk c = true <;> simp [hr]
  · rw [hl]
    unfold linkShape
    rw [hpads]
    simp [padProbeBits]
  · unfold linkPadWithOptionalBuffer
    by_cases hr : padCapsRtp fok pc = true <;> simp [hr]
  · unfold linkPadWithOptionalBuffer
    by_cases hr : padCapsRtp fok pc = true <;> simp [hr]

theorem C4_pad_shape_linking_witness :
    (⟨Ingest.udpsrc (some RtpEnc.h264), ParserKind.parsebin, Linkage.deferred⟩ :
        SourceConfig).linkage = Linkage.deferred ∧
    (linkPadWithOptionalBuffer true true true true true
        (some ⟨false, true⟩)).usedBuffer = padCapsRtp true (some ⟨false, true⟩) := by
  have h := C4_pad_shape_linking { envAllOk with srcPads := [] } 5000000
      "udp://127.0.0.1:5600" ⟨.udpsrc (some .h264), .parsebin, .deferred⟩
      (some ⟨false, false⟩) (by decide) (by decide)
  exact ⟨h.2.1 rfl, h.2.2.1 true (some ⟨false, true⟩)⟩

end QGCVR
